import Mathlib

/-
Verification of the decision-engine components of the issues-tracker backend:
the smart assignment engine (backend/app/ai/assignment_engine.py), the smart
notification engine (backend/app/ai/notification_engine.py), the shared
business-hours helper (backend/app/ai/base.py) and the data model
(backend/app/models.py).

Modelling conventions:
- SQLAlchemy rows become Lean structures; a database table becomes a
  `List` of rows, and SQLAlchemy query chains become `List.filter` /
  `List.take` / counting over that list.
- Python `datetime` values are modelled as rational seconds since an epoch;
  `(end - start).total_seconds()` is plain subtraction.
- Python floats are modelled as rationals; `round(x, 2)` display formatting
  and human-readable justification strings are presentation only and are not
  modelled (fields that hold them are carried as empty strings).
- Python `list.sort` / `sorted` (a stable sort) is modelled with the stable
  `List.insertionSort`.
- `str.lower` is modelled by `lowerStr` (character-wise `Char.toLower`),
  and the `in` substring test by `strContains`.
-/

namespace IssuesTracker

/-! ## Data model (backend/app/models.py) -/

inductive UserRole
  | ADMIN
  | MAINTAINER
  | REPORTER
deriving DecidableEq

inductive IssueStatus
  | OPEN
  | TRIAGED
  | IN_PROGRESS
  | DONE
deriving DecidableEq

inductive IssueSeverity
  | LOW
  | MEDIUM
  | HIGH
  | CRITICAL
deriving DecidableEq

/-- A row of the `users` table (fields not consulted by the engines are
omitted). `isActive` mirrors the `is_active` column. -/
structure User where
  id : Nat
  fullName : String
  role : UserRole
  isActive : Bool
deriving DecidableEq

/-- A row of the `issues` table (fields not consulted by the engines are
omitted). Timestamps are rational seconds. -/
structure Issue where
  id : Nat
  title : String
  description : String
  severity : IssueSeverity
  status : IssueStatus
  assigneeId : Option Nat
  createdAt : ℚ
  updatedAt : ℚ
deriving DecidableEq

/-- The `issue_data` dict handed to `suggest_assignee`: the severity entry is
a plain string there (`issue_data.get('severity', 'MEDIUM')`). -/
structure IssueData where
  title : String
  description : String
  severity : String
deriving DecidableEq

/-! ## String helpers -/

def spaceStr : String := " "

/-- Character-wise lowercasing, modelling Python `str.lower` on the ASCII
texts the engine handles. -/
def lowerStr (s : String) : String := ⟨s.data.map Char.toLower⟩

/-- Python `pat in text` substring containment. -/
def strContains (text pat : String) : Bool := decide (pat.data <:+: text.data)

/-- The lower-cased `f"{issue.title} {issue.description}"` text used for
keyword matching. -/
def issueTextOf (i : Issue) : String := lowerStr (i.title ++ spaceStr ++ i.description)

/-! ## TimeMath (backend/app/ai/base.py, get_business_hours_between) -/

/-- Embeds `AIBaseService.get_business_hours_between` (base.py lines
179-187): raw elapsed seconds are converted to hours and multiplied by the
literal factor `0.33`, then clamped at zero. -/
def getBusinessHoursBetween (startT endT : ℚ) : ℚ :=
  max 0 (((endT - startT) / 3600) * (33 / 100))

/-- Modelled from the spec: the claimed business-hours formula
`rawHours × (8/24) × (5/7)` clamped at zero, for comparison with the
code's `getBusinessHoursBetween`. -/
def specBusinessHoursBetween (startT endT : ℚ) : ℚ :=
  max 0 (((endT - startT) / 3600) * (8 / 24) * (5 / 7))

/-! ## Assignment engine (backend/app/ai/assignment_engine.py) -/

/-- The `expertise_weights` keyword taxonomy (assignment_engine.py lines
16-25), in dict insertion order. -/
def expertiseWeights : List (String × List String) :=
  [ (r"frontend", [r"react", r"vue", r"angular", r"javascript", r"css", r"html", r"ui", r"svelte"])
  , (r"backend", [r"api", r"server", r"database", r"python", r"java", r"node", r"fastapi"])
  , (r"mobile", [r"ios", r"android", r"react native", r"flutter", r"mobile", r"app"])
  , (r"devops", [r"docker", r"kubernetes", r"aws", r"deploy", r"ci/cd", r"pipeline"])
  , (r"security", [r"security", r"auth", r"vulnerability", r"breach", r"ssl", r"encryption"])
  , (r"performance", [r"performance", r"optimization", r"slow", r"memory", r"cpu", r"cache"])
  , (r"database", [r"sql", r"mysql", r"postgresql", r"mongodb", r"query", r"migration"])
  , (r"ui_ux", [r"design", r"layout", r"responsive", r"user experience", r"accessibility"]) ]

/-- Python `self.expertise_weights.get(area, [])`. -/
def lookupKeywords (area : String) : List String :=
  match expertiseWeights.find? (fun aw => aw.1 == area) with
  | some aw => aw.2
  | none => []

/-- Embeds `_identify_required_expertise` (lines 92-100): every taxonomy
area with at least one keyword occurring in the issue text, in taxonomy
order. -/
def identifyRequiredExpertise (issueText : String) : List String :=
  (expertiseWeights.filter (fun aw => aw.2.any (fun kw => strContains issueText kw))).map (fun aw => aw.1)

/-- The query of `_calculate_expertise_score` (lines 159-164): the user's
resolved (status DONE) assigned issues, limited to 100. -/
def resolvedIssuesOf (userId : Nat) (issues : List Issue) : List Issue :=
  (issues.filter (fun i => i.assigneeId == some userId && i.status == IssueStatus.DONE)).take 100

/-- Embeds `_calculate_expertise_score` (lines 153-199) given the resolved
history and the required expertise areas: empty history returns the 3.0
default; otherwise per-area match counts are scored and averaged, with a
+1 bonus for matches in more than one area, capped at 10. -/
def calculateExpertiseScore (resolvedIssues : List Issue) (requiredExpertise : List String) : ℚ :=
  if resolvedIssues.isEmpty then 3
  else
    let areaMatchCounts := requiredExpertise.map (fun area =>
      let areaKeywords := lookupKeywords area
      (resolvedIssues.filter (fun i =>
        areaKeywords.any (fun kw => strContains (issueTextOf i) kw))).length)
    let expertiseMatches := (areaMatchCounts.filter (fun m => 0 < m)).length
    let totalExpertiseScore : ℚ := areaMatchCounts.foldl
      (fun acc m =>
        if 0 < m then acc + min 10 (((m : ℚ) / (resolvedIssues.length : ℚ)) * 20) else acc) 0
    if requiredExpertise.isEmpty then 6
    else
      let finalScore := totalExpertiseScore / (requiredExpertise.length : ℚ)
      let finalScore2 := if 1 < expertiseMatches then finalScore + 1 else finalScore
      min 10 finalScore2

/-- The query of `_calculate_workload_score` (lines 211-216): the user's
assigned issues in a non-terminal status (OPEN, TRIAGED or IN_PROGRESS). -/
def countActiveIssues (userId : Nat) (issues : List Issue) : Nat :=
  (issues.filter (fun i => i.assigneeId == some userId &&
    (i.status == IssueStatus.OPEN || i.status == IssueStatus.TRIAGED ||
      i.status == IssueStatus.IN_PROGRESS))).length

/-- The step function of `_calculate_workload_score` (lines 220-231). -/
def workloadScoreOfCount (n : Nat) : ℚ :=
  if n = 0 then 10
  else if n ≤ 3 then 8
  else if n ≤ 5 then 6
  else if n ≤ 8 then 4
  else if n ≤ 10 then 2
  else 1

/-- Embeds `_calculate_workload_score` (lines 205-231). -/
def calculateWorkloadScore (userId : Nat) (issues : List Issue) : ℚ :=
  workloadScoreOfCount (countActiveIssues userId issues)

/-- The query of `_calculate_availability_score` (lines 243-250): the user's
assigned issues updated within the trailing seven days. -/
def countRecentActivity (userId : Nat) (issues : List Issue) (now : ℚ) : Nat :=
  (issues.filter (fun i => i.assigneeId == some userId &&
    decide (now - 7 * 24 * 3600 ≤ i.updatedAt))).length

/-- Embeds `_calculate_availability_score` (lines 237-260). -/
def calculateAvailabilityScore (userId : Nat) (issues : List Issue) (now : ℚ) : ℚ :=
  let recentActivity := countRecentActivity userId issues now
  if 5 ≤ recentActivity then 10
  else if 3 ≤ recentActivity then 8
  else if 1 ≤ recentActivity then 6
  else 4

def sevStrCRITICAL : String := "CRITICAL"
def sevStrHIGH : String := "HIGH"
def sevStrMEDIUM : String := "MEDIUM"

/-- Embeds `_calculate_priority_score` (lines 266-284); the severity comes
from the issue-data dict as a string. -/
def calculatePriorityScore (d : IssueData) (u : User) : ℚ :=
  if u.role = UserRole.ADMIN then
    if d.severity = sevStrCRITICAL then 10
    else if d.severity = sevStrHIGH then 8
    else 6
  else if u.role = UserRole.MAINTAINER then
    if d.severity = sevStrCRITICAL ∨ d.severity = sevStrHIGH then 8
    else 7
  else 5

/-- The score record built by `_calculate_assignee_score` (lines 129-140),
without the presentation-only `round(·, 2)` formatting and justification
string. -/
structure ScoreData where
  userId : Nat
  userName : String
  userRole : UserRole
  totalScore : ℚ
  expertiseScore : ℚ
  workloadScore : ℚ
  availabilityScore : ℚ
  priorityScore : ℚ
  confidence : ℚ
deriving DecidableEq

/-- Embeds `_calculate_assignee_score` (lines 102-140): the four sub-scores
are combined with the weights 0.4 / 0.3 / 0.2 / 0.1 (lines 114-119) and the
confidence is `min(0.95, total_score / 10.0)` (line 122). -/
def calculateAssigneeScore (u : User) (issues : List Issue) (d : IssueData)
    (requiredExpertise : List String) (now : ℚ) : ScoreData :=
  let expertiseScore := calculateExpertiseScore (resolvedIssuesOf u.id issues) requiredExpertise
  let workloadScore := calculateWorkloadScore u.id issues
  let availabilityScore := calculateAvailabilityScore u.id issues now
  let priorityScore := calculatePriorityScore d u
  let totalScore := expertiseScore * (4 / 10) + workloadScore * (3 / 10) +
    availabilityScore * (2 / 10) + priorityScore * (1 / 10)
  let confidence := min (19 / 20) (totalScore / 10)
  { userId := u.id, userName := u.fullName, userRole := u.role,
    totalScore := totalScore, expertiseScore := expertiseScore,
    workloadScore := workloadScore, availabilityScore := availabilityScore,
    priorityScore := priorityScore, confidence := confidence }

/-- Modelled from the spec: the claimed total-score formula
`0.4×expertise + 0.25×workload + 0.2×performance + 0.1×availability`,
for comparison with the code's weighting in `calculateAssigneeScore`. -/
def specWeightedTotal (expertise workload performance availability : ℚ) : ℚ :=
  expertise * (4 / 10) + workload * (25 / 100) + performance * (2 / 10) +
    availability * (1 / 10)

/-- The `recommended_assignee` sub-dict of the `suggest_assignee` result. -/
structure RecommendedAssignee where
  id : Nat
  name : String
  role : UserRole
deriving DecidableEq

/-- The dict returned by `suggest_assignee`. `errorFlag` mirrors the
`'error': True` key that only the exception path (lines 82-88) adds; the
normal paths leave it absent, modelled as `false`. Justification strings of
the success path are presentation only and carried as the empty string. -/
structure SuggestResult where
  recommended : Option RecommendedAssignee
  reason : String
  allSuggestions : List ScoreData
  confidence : ℚ
  errorFlag : Bool
deriving DecidableEq

def noUsersReason : String := "No available maintainers or admins found"
def noSuitableReason : String := "No suitable assignee found based on current criteria"
def emptyReason : String := ""

/-- Descending-by-total ordering used by the `assignee_scores.sort(key=...,
reverse=True)` call (line 56). -/
def scoreDescRel : ScoreData → ScoreData → Prop := fun a b => b.totalScore ≤ a.totalScore

instance : DecidableRel scoreDescRel :=
  fun a b => inferInstanceAs (Decidable (b.totalScore ≤ a.totalScore))

/-- The role filter of `suggest_assignee` (lines 33-35):
`User.role.in_([UserRole.ADMIN, UserRole.MAINTAINER])`. No other condition
(in particular not `is_active`) is part of the query. -/
def availableUsersOf (users : List User) : List User :=
  users.filter (fun u => u.role == UserRole.ADMIN || u.role == UserRole.MAINTAINER)

/-- The `assignee_scores` list of `suggest_assignee` after the
`sort(key=..., reverse=True)` call (lines 49-56): one score record per
role-eligible user, sorted descending by total score (stable). -/
def sortedScoresOf (users : List User) (issues : List Issue) (d : IssueData) (now : ℚ) :
    List ScoreData :=
  List.insertionSort scoreDescRel
    ((availableUsersOf users).map (fun u =>
      calculateAssigneeScore u issues d
        (identifyRequiredExpertise (lowerStr (d.title ++ spaceStr ++ d.description))) now))

/-- Embeds `suggest_assignee` (lines 27-90): filter users by role, score
each, sort descending by total score, return the best match with the top
three suggestions; with no available users a placeholder result is returned
(lines 37-43). The `analysis_timestamp` field is not modelled. -/
def suggestAssignee (users : List User) (issues : List Issue) (d : IssueData) (now : ℚ) :
    SuggestResult :=
  if (availableUsersOf users).isEmpty then
    { recommended := none, reason := noUsersReason, allSuggestions := [],
      confidence := 0, errorFlag := false }
  else
    match sortedScoresOf users issues d now with
    | [] =>
      { recommended := none, reason := noSuitableReason, allSuggestions := [],
        confidence := 0, errorFlag := false }
    | best :: rest =>
      { recommended := some { id := best.userId, name := best.userName, role := best.userRole },
        reason := emptyReason, allSuggestions := (best :: rest).take 3,
        confidence := best.confidence, errorFlag := false }

/-! ## Notification engine (backend/app/ai/notification_engine.py) -/

/-- One row of the `escalation_thresholds` table (business hours). -/
structure Thresholds where
  firstWarning : ℚ
  escalateAt : ℚ
  urgentAt : ℚ
deriving DecidableEq

/-- The per-severity `escalation_thresholds` table (notification_engine.py
lines 18-39). -/
def escalationThresholds : IssueSeverity → Thresholds
  | IssueSeverity.CRITICAL => ⟨2, 4, 8⟩
  | IssueSeverity.HIGH => ⟨8, 24, 48⟩
  | IssueSeverity.MEDIUM => ⟨24, 72, 120⟩
  | IssueSeverity.LOW => ⟨72, 168, 336⟩

inductive EscalationLevel
  | warning
  | escalate
  | urgent
deriving DecidableEq

/-- The tier-selection chain of `should_escalate` (lines 167-173) over an
arbitrary threshold row: `urgent` is checked first, then `escalate`, then
`first_warning`; `none` models Python `None`. -/
def baseLevelFromThresholds (t : Thresholds) (bh : ℚ) : Option EscalationLevel :=
  if t.urgentAt ≤ bh then some EscalationLevel.urgent
  else if t.escalateAt ≤ bh then some EscalationLevel.escalate
  else if t.firstWarning ≤ bh then some EscalationLevel.warning
  else none

/-- The base (time-tier) escalation level of `should_escalate` for a given
severity and elapsed business hours. -/
def baseEscalationLevel (sev : IssueSeverity) (bh : ℚ) : Option EscalationLevel :=
  baseLevelFromThresholds (escalationThresholds sev) bh

/-- Order of escalation levels: none < warning < escalate < urgent. -/
def levelRank : Option EscalationLevel → Nat
  | none => 0
  | some EscalationLevel.warning => 1
  | some EscalationLevel.escalate => 2
  | some EscalationLevel.urgent => 3

/-- The threshold a given tier requires, per threshold row. -/
def tierThresholdOf (t : Thresholds) : EscalationLevel → ℚ
  | EscalationLevel.warning => t.firstWarning
  | EscalationLevel.escalate => t.escalateAt
  | EscalationLevel.urgent => t.urgentAt

def factorUnassigned : String := "unassigned"
def factorCriticalTimeout : String := "critical_timeout"
def factorPatternDetected : String := "pattern_detected"

/-- The dict returned by `should_escalate` (lines 193-199), without the
`recommended_actions` text list. -/
structure EscalationCheck where
  shouldEscalateFlag : Bool
  escalationLevel : Option EscalationLevel
  businessHoursElapsed : ℚ
  escalationFactors : List String
deriving DecidableEq

/-- Embeds `should_escalate` (lines 158-199). `similarCount` stands for the
result of the `_count_similar_open_issues` helper, which the function only
compares against 3. The unused local `time_in_status` and the
`recommended_actions` text are not modelled. -/
def shouldEscalate (issue : Issue) (now : ℚ) (similarCount : Nat) : EscalationCheck :=
  let bh := getBusinessHoursBetween issue.createdAt now
  let lvl := baseEscalationLevel issue.severity bh
  let se0 := lvl.isSome
  let unassigned := issue.assigneeId.isNone
  let factors1 := if unassigned then [factorUnassigned] else []
  let se1 := if unassigned then true else se0
  let critTimeout := issue.severity = IssueSeverity.CRITICAL ∧ 1 < bh
  let factors2 := if critTimeout then factors1 ++ [factorCriticalTimeout] else factors1
  let se2 := if critTimeout then true else se1
  let patternHit := 3 ≤ similarCount
  let factors3 := if patternHit then factors2 ++ [factorPatternDetected] else factors2
  let se3 := if patternHit then true else se2
  { shouldEscalateFlag := se3, escalationLevel := lvl,
    businessHoursElapsed := bh, escalationFactors := factors3 }

def urgStrHigh : String := "high"
def urgStrMedium : String := "medium"
def urgStrLow : String := "low"
def typeStrEscalation : String := "escalation"
def typeStrBottleneck : String := "bottleneck_detected"
def typeStrTrendAlert : String := "trend_alert"
def typeStrAssignmentNeeded : String := "assignment_needed"
def typeStrWorkloadWarning : String := "workload_warning"
def typeStrSystemHealth : String := "system_health"

/-- A notification dict as consumed by `_prioritize_notifications`; only the
`type` and `urgency` entries are read there (with defaults), so only those
are modelled. -/
structure Notification where
  ntype : String
  urgency : String
deriving DecidableEq

/-- The `urgency_weights` lookup (line 566) combined with the
`notification.get('urgency', 'low')` default: a missing or unknown urgency
falls back to weight 1. -/
def urgencyWeight (u : String) : Nat :=
  if u = urgStrHigh then 3
  else if u = urgStrMedium then 2
  else if u = urgStrLow then 1
  else 1

/-- The `type_weights` lookup (lines 572-580) with its default of 1 for
unknown types. -/
def typeWeight (t : String) : Nat :=
  if t = typeStrEscalation then 3
  else if t = typeStrBottleneck then 2
  else if t = typeStrTrendAlert then 2
  else if t = typeStrAssignmentNeeded then 2
  else if t = typeStrWorkloadWarning then 1
  else if t = typeStrSystemHealth then 1
  else 1

/-- Embeds `get_priority_score` (lines 568-582). -/
def getPriorityScore (n : Notification) : Nat := urgencyWeight n.urgency * typeWeight n.ntype

/-- Descending-by-priority ordering used by the
`sorted(notifications, key=get_priority_score, reverse=True)` call. -/
def notifDescRel : Notification → Notification → Prop :=
  fun a b => getPriorityScore b ≤ getPriorityScore a

instance : DecidableRel notifDescRel :=
  fun a b => inferInstanceAs (Decidable (getPriorityScore b ≤ getPriorityScore a))

instance : IsTotal Notification notifDescRel := ⟨fun a b => le_total (getPriorityScore b) (getPriorityScore a)⟩

instance : IsTrans Notification notifDescRel := ⟨fun _ _ _ h1 h2 => le_trans h2 h1⟩

/-- Embeds `_prioritize_notifications` (lines 564-588): stable descending
sort by priority score, then truncation to the first 20. -/
def prioritizeNotifications (ns : List Notification) : List Notification :=
  (List.insertionSort notifDescRel ns).take 20

/-! ## Concrete inputs used to settle individual claims -/

def nameAlice : String := "alice"
def nameBob : String := "bob"
def titleT : String := "t"
def descD : String := "d"

/-- A REPORTER-role active user: filtered out by the role filter. -/
def reporterBob : User := { id := 2, fullName := nameBob, role := UserRole.REPORTER, isActive := true }

/-- An ADMIN-role user whose `isActive` flag is cleared. -/
def inactiveAdmin : User := { id := 3, fullName := nameAlice, role := UserRole.ADMIN, isActive := false }

/-- An active ADMIN user. -/
def activeAdmin : User := { id := 1, fullName := nameAlice, role := UserRole.ADMIN, isActive := true }

/-- Issue data with text matching no taxonomy keyword and MEDIUM severity. -/
def plainIssueData : IssueData := { title := titleT, description := descD, severity := sevStrMEDIUM }

/-- A CRITICAL, unassigned issue created at time 0. -/
def criticalUnassignedIssue : Issue :=
  { id := 1, title := titleT, description := descD, severity := IssueSeverity.CRITICAL,
    status := IssueStatus.OPEN, assigneeId := none, createdAt := 0, updatedAt := 0 }

/-- A low-priority notification (workload warning, low urgency): score 1. -/
def lowNotification : Notification := { ntype := typeStrWorkloadWarning, urgency := urgStrLow }

/-- A top-priority notification (escalation, high urgency): score 9. -/
def highNotification : Notification := { ntype := typeStrEscalation, urgency := urgStrHigh }

/-! ## Claim C3: business-hours formula -/

/-- Claim C3 (counterexample): at start 0 and end 360000 seconds (100 raw
hours) the code returns 33 business hours, whereas the claimed
`rawHours × (8/24) × (5/7)` formula gives 500/21 ≈ 23.8, so the two
disagree. -/
theorem C3_counterexample :
    getBusinessHoursBetween 0 360000 = 33 ∧
    specBusinessHoursBetween 0 360000 = 500 / 21 ∧
    getBusinessHoursBetween 0 360000 ≠ specBusinessHoursBetween 0 360000 := by
  norm_num [getBusinessHoursBetween, specBusinessHoursBetween]

/-- Claim C3 (amended): the helper equals `max 0 (rawHours × 0.33)` — the
derating factor is the literal 0.33, not (8/24)×(5/7); when end precedes
start it returns exactly 0 without raising, and the result is never
negative. -/
theorem C3_business_hours_amended (startT endT : ℚ) :
    getBusinessHoursBetween startT endT = max 0 (((endT - startT) / 3600) * (33 / 100)) ∧
    (endT < startT → getBusinessHoursBetween startT endT = 0) ∧
    0 ≤ getBusinessHoursBetween startT endT := by
  refine ⟨rfl, ?_, le_max_left 0 _⟩
  intro h
  have h1 : endT - startT < 0 := sub_neg.mpr h
  have h2 : (endT - startT) / 3600 < 0 := div_neg_of_neg_of_pos h1 (by norm_num)
  have h3 : ((endT - startT) / 3600) * (33 / 100) < 0 := mul_neg_of_neg_of_pos h2 (by norm_num)
  simpa [getBusinessHoursBetween] using max_eq_left h3.le

/-- Claim C3 witness: the amended theorem applied at start 3600, end 0. -/
theorem C3_witness :
    getBusinessHoursBetween 3600 0 = max 0 (((0 - 3600 : ℚ) / 3600) * (33 / 100)) ∧
    getBusinessHoursBetween 3600 0 = 0 ∧ 0 ≤ getBusinessHoursBetween 3600 0 :=
  ⟨(C3_business_hours_amended 3600 0).1,
   (C3_business_hours_amended 3600 0).2.1 (by norm_num),
   (C3_business_hours_amended 3600 0).2.2⟩

/-! ## Claim C6: workload step function -/

/-- Claim C6 (confirmed): the workload score is exactly the documented step
function of the count of non-terminal assigned issues (0 → 10; ≤3 → 8;
≤5 → 6; ≤8 → 4; ≤10 → 2; >10 → 1), the statuses counted are precisely the
non-DONE ones, and the step function is monotone non-increasing. -/
theorem C6_workload_step_monotone :
    (∀ userId issues, calculateWorkloadScore userId issues =
      workloadScoreOfCount (countActiveIssues userId issues)) ∧
    (∀ s : IssueStatus,
      (s == IssueStatus.OPEN || s == IssueStatus.TRIAGED || s == IssueStatus.IN_PROGRESS) =
        !(s == IssueStatus.DONE)) ∧
    (workloadScoreOfCount 0 = 10 ∧
      (∀ n, 1 ≤ n → n ≤ 3 → workloadScoreOfCount n = 8) ∧
      (∀ n, 4 ≤ n → n ≤ 5 → workloadScoreOfCount n = 6) ∧
      (∀ n, 6 ≤ n → n ≤ 8 → workloadScoreOfCount n = 4) ∧
      (∀ n, 9 ≤ n → n ≤ 10 → workloadScoreOfCount n = 2) ∧
      (∀ n, 11 ≤ n → workloadScoreOfCount n = 1)) ∧
    (∀ a b : Nat, a ≤ b → workloadScoreOfCount b ≤ workloadScoreOfCount a) := by
  refine ⟨fun _ _ => rfl, ?_, ⟨rfl, ?_, ?_, ?_, ?_, ?_⟩, ?_⟩
  · intro s; cases s <;> rfl
  · intro n h1 h2; unfold workloadScoreOfCount
    split_ifs <;> first | rfl | omega
  · intro n h1 h2; unfold workloadScoreOfCount
    split_ifs <;> first | rfl | omega
  · intro n h1 h2; unfold workloadScoreOfCount
    split_ifs <;> first | rfl | omega
  · intro n h1 h2; unfold workloadScoreOfCount
    split_ifs <;> first | rfl | omega
  · intro n h1; unfold workloadScoreOfCount
    split_ifs <;> first | rfl | omega
  · intro a b hab; unfold workloadScoreOfCount
    split_ifs <;> first | (exfalso; omega) | norm_num

/-- Claim C6 witness: the monotonicity conjunct at counts 2 ≤ 7. -/
theorem C6_witness : workloadScoreOfCount 7 ≤ workloadScoreOfCount 2 :=
  C6_workload_step_monotone.2.2.2 2 7 (by norm_num)

/-! ## Claim C7: expertise default for empty history -/

/-- Claim C7 (counterexample): with an empty resolved-issue history the
expertise scorer returns 3.0 — not the claimed neutral 5.0. -/
theorem C7_counterexample :
    calculateExpertiseScore [] [r"security"] = 3 ∧
    calculateExpertiseScore [] [r"security"] ≠ 5 := by
  constructor <;> norm_num [calculateExpertiseScore]

/-- Claim C7 (amended): for every candidate whose resolved-issue history is
empty the expertise scorer returns the default 3.0, regardless of the
required-expertise areas derived from the issue text. -/
theorem C7_empty_history_default (resolved : List Issue) (required : List String)
    (h : resolved = []) : calculateExpertiseScore resolved required = 3 := by
  subst h
  norm_num [calculateExpertiseScore]

/-- Claim C7 witness: the amended theorem at the empty history. -/
theorem C7_witness : calculateExpertiseScore [] [] = 3 :=
  C7_empty_history_default [] [] rfl

/-! ## Claim C10: confidence formula and cap -/

/-- Claim C10 (confirmed): for every scored candidate the confidence equals
`min(0.95, totalScore / 10)` and therefore never exceeds 0.95 and never
reaches 1.0. -/
theorem C10_confidence_cap (u : User) (issues : List Issue) (d : IssueData)
    (required : List String) (now : ℚ) :
    (calculateAssigneeScore u issues d required now).confidence =
      min (19 / 20) ((calculateAssigneeScore u issues d required now).totalScore / 10) ∧
    (calculateAssigneeScore u issues d required now).confidence ≤ 19 / 20 ∧
    (calculateAssigneeScore u issues d required now).confidence < 1 :=
  ⟨rfl, min_le_left _ _, lt_of_le_of_lt (min_le_left _ _) (by norm_num)⟩

/-! ## Claim C2: total-score weights -/

/-- Claim C2 (counterexample): for an active admin with no history, no open
issues, no recent activity and a MEDIUM issue, the code computes sub-scores
expertise 3, workload 10, availability 4, priority 6 and total 5.6; the
claimed weights 0.4/0.25/0.2/0.1 give a different total under either way of
matching the two remaining sub-scores to the claimed performance and
availability slots. -/
theorem C2_counterexample :
    (calculateAssigneeScore activeAdmin [] plainIssueData [] 0).totalScore = 28 / 5 ∧
    specWeightedTotal (calculateAssigneeScore activeAdmin [] plainIssueData [] 0).expertiseScore
      (calculateAssigneeScore activeAdmin [] plainIssueData [] 0).workloadScore
      (calculateAssigneeScore activeAdmin [] plainIssueData [] 0).priorityScore
      (calculateAssigneeScore activeAdmin [] plainIssueData [] 0).availabilityScore ≠ 28 / 5 ∧
    specWeightedTotal (calculateAssigneeScore activeAdmin [] plainIssueData [] 0).expertiseScore
      (calculateAssigneeScore activeAdmin [] plainIssueData [] 0).workloadScore
      (calculateAssigneeScore activeAdmin [] plainIssueData [] 0).availabilityScore
      (calculateAssigneeScore activeAdmin [] plainIssueData [] 0).priorityScore ≠ 28 / 5 := by
  have hMC : sevStrMEDIUM ≠ sevStrCRITICAL := by decide
  have hMH : sevStrMEDIUM ≠ sevStrHIGH := by decide
  norm_num [calculateAssigneeScore, calculateExpertiseScore, resolvedIssuesOf,
    calculateWorkloadScore, countActiveIssues, workloadScoreOfCount,
    calculateAvailabilityScore, countRecentActivity, calculatePriorityScore,
    activeAdmin, plainIssueData, specWeightedTotal, hMC, hMH]

/-- Claim C2 (amended): the ranker combines the four sub-scores it actually
computes — expertise, workload, availability and priority handling — with
the fixed weights 0.4, 0.3, 0.2 and 0.1 respectively. -/
theorem C2_actual_weights (u : User) (issues : List Issue) (d : IssueData)
    (required : List String) (now : ℚ) :
    (calculateAssigneeScore u issues d required now).totalScore =
      (calculateAssigneeScore u issues d required now).expertiseScore * (4 / 10) +
      (calculateAssigneeScore u issues d required now).workloadScore * (3 / 10) +
      (calculateAssigneeScore u issues d required now).availabilityScore * (2 / 10) +
      (calculateAssigneeScore u issues d required now).priorityScore * (1 / 10) := rfl

/-! ## Claim C4: escalation thresholds and monotonicity -/

/-- Soundness of the tier-selection chain: whatever tier it returns has its
threshold met by the elapsed business hours. -/
theorem baseLevel_sound (t : Thresholds) (bh : ℚ) (lvl : EscalationLevel)
    (h : baseLevelFromThresholds t bh = some lvl) : tierThresholdOf t lvl ≤ bh := by
  unfold baseLevelFromThresholds at h
  split_ifs at h with h1 h2 h3
  · injection h with h4; subst h4; exact h1
  · injection h with h4; subst h4; exact h2
  · injection h with h4; subst h4; exact h3

/-- Maximality of the tier-selection chain: any tier whose threshold is met
ranks no higher than the returned tier. -/
theorem baseLevel_highest (t : Thresholds) (bh : ℚ) (lvl : EscalationLevel)
    (h : tierThresholdOf t lvl ≤ bh) :
    levelRank (some lvl) ≤ levelRank (baseLevelFromThresholds t bh) := by
  unfold baseLevelFromThresholds
  cases lvl <;> simp only [tierThresholdOf] at h <;> split_ifs <;> decide

/-- Monotonicity of the tier-selection chain in elapsed business hours. -/
theorem baseLevel_mono (t : Thresholds) (b1 b2 : ℚ) (h : b1 ≤ b2) :
    levelRank (baseLevelFromThresholds t b1) ≤ levelRank (baseLevelFromThresholds t b2) := by
  unfold baseLevelFromThresholds
  split_ifs <;> first | decide | (exfalso; linarith)

/-- Claim C4 (confirmed): the per-severity thresholds are exactly
CRITICAL 2/4/8, HIGH 8/24/48, MEDIUM 24/72/120, LOW 72/168/336 business
hours; the base escalation level is sound (its threshold is met) and
maximal (no tier with a met threshold ranks higher), and for fixed severity
it is monotone non-decreasing in elapsed business hours. -/
theorem C4_escalation_tiers :
    (escalationThresholds IssueSeverity.CRITICAL = ⟨2, 4, 8⟩ ∧
      escalationThresholds IssueSeverity.HIGH = ⟨8, 24, 48⟩ ∧
      escalationThresholds IssueSeverity.MEDIUM = ⟨24, 72, 120⟩ ∧
      escalationThresholds IssueSeverity.LOW = ⟨72, 168, 336⟩) ∧
    (∀ sev bh lvl, baseEscalationLevel sev bh = some lvl →
      tierThresholdOf (escalationThresholds sev) lvl ≤ bh) ∧
    (∀ sev bh lvl, tierThresholdOf (escalationThresholds sev) lvl ≤ bh →
      levelRank (some lvl) ≤ levelRank (baseEscalationLevel sev bh)) ∧
    (∀ sev b1 b2, b1 ≤ b2 →
      levelRank (baseEscalationLevel sev b1) ≤ levelRank (baseEscalationLevel sev b2)) := by
  refine ⟨⟨rfl, rfl, rfl, rfl⟩, ?_, ?_, ?_⟩
  · intro sev bh lvl h
    exact baseLevel_sound (escalationThresholds sev) bh lvl h
  · intro sev bh lvl h
    exact baseLevel_highest (escalationThresholds sev) bh lvl h
  · intro sev b1 b2 h
    exact baseLevel_mono (escalationThresholds sev) b1 b2 h

/-- Claim C4 witness: monotonicity of the base level for a CRITICAL issue
between 3 and 5 elapsed business hours. -/
theorem C4_witness :
    levelRank (baseEscalationLevel IssueSeverity.CRITICAL 3) ≤
      levelRank (baseEscalationLevel IssueSeverity.CRITICAL 5) :=
  C4_escalation_tiers.2.2.2 IssueSeverity.CRITICAL 3 5 (by norm_num)

/-! ## Claim C5: CRITICAL, fresh, unassigned issue -/

/-- Claim C5 (counterexample): for a CRITICAL issue with 0 business hours
elapsed, no assignee and no matching similar issues, the classifier does
yield base level none and the single factor `unassigned` — but it FORCES
escalation (`should_escalate` is true), and it records no numeric 0.3 risk
contribution anywhere, contradicting the claim that escalation is not
forced. -/
theorem C5_counterexample :
    (shouldEscalate criticalUnassignedIssue 0 0).escalationLevel = none ∧
    (shouldEscalate criticalUnassignedIssue 0 0).escalationFactors = [factorUnassigned] ∧
    (shouldEscalate criticalUnassignedIssue 0 0).shouldEscalateFlag = true := by
  norm_num [shouldEscalate, criticalUnassignedIssue, getBusinessHoursBetween,
    baseEscalationLevel, baseLevelFromThresholds, escalationThresholds]

/-- Claim C5 (amended): for a CRITICAL issue with 0 business hours elapsed,
no assignee and fewer than 3 similar open issues, the classifier yields
base escalation level none and the single escalation factor `unassigned`
(recorded as a label, not a numeric 0.3 risk score), and being unassigned
alone forces `should_escalate` to true. -/
theorem C5_critical_unassigned_forced (issue : Issue) (now : ℚ) (similarCount : Nat)
    (hsev : issue.severity = IssueSeverity.CRITICAL)
    (hassign : issue.assigneeId = none)
    (hbh : getBusinessHoursBetween issue.createdAt now = 0)
    (hsim : similarCount < 3) :
    shouldEscalate issue now similarCount =
      { shouldEscalateFlag := true, escalationLevel := none,
        businessHoursElapsed := 0, escalationFactors := [factorUnassigned] } := by
  have hp : ¬ (3 ≤ similarCount) := by omega
  norm_num [shouldEscalate, hsev, hassign, hbh, hp, baseEscalationLevel,
    baseLevelFromThresholds, escalationThresholds]

/-- Claim C5 witness: the amended theorem at the concrete fresh CRITICAL
unassigned issue. -/
theorem C5_witness :
    shouldEscalate criticalUnassignedIssue 0 0 =
      { shouldEscalateFlag := true, escalationLevel := none,
        businessHoursElapsed := 0, escalationFactors := [factorUnassigned] } :=
  C5_critical_unassigned_forced criticalUnassignedIssue 0 0 rfl rfl
    (by norm_num [criticalUnassignedIssue, getBusinessHoursBetween]) (by norm_num)

/-! ## Claim C1: behaviour with no eligible candidates -/

/-- Claim C1 (counterexample): with only a REPORTER-role user in the
database the role filter leaves no candidate, yet `suggest_assignee`
returns the placeholder result — recommended assignee None, empty
suggestions, confidence 0, and no error is raised or signalled. -/
theorem C1_counterexample :
    suggestAssignee [reporterBob] [] plainIssueData 0 =
      { recommended := none, reason := noUsersReason, allSuggestions := [],
        confidence := 0, errorFlag := false } := rfl

/-- Claim C1 (amended): whenever the role filter (ADMIN or MAINTAINER; the
`is_active` flag is not consulted) leaves no candidate, `suggest_assignee`
returns the placeholder result with recommended assignee None, the reason
string of the no-users path, empty suggestions and confidence 0 — no
`NoCandidatesError` exists and nothing is raised. -/
theorem C1_no_candidates_placeholder (users : List User) (issues : List Issue)
    (d : IssueData) (now : ℚ) (h : availableUsersOf users = []) :
    suggestAssignee users issues d now =
      { recommended := none, reason := noUsersReason, allSuggestions := [],
        confidence := 0, errorFlag := false } := by
  simp [suggestAssignee, h]

/-- Claim C1 witness: the amended theorem at the REPORTER-only database. -/
theorem C1_witness :
    suggestAssignee [reporterBob] [] plainIssueData 0 =
      { recommended := none, reason := noUsersReason, allSuggestions := [],
        confidence := 0, errorFlag := false } :=
  C1_no_candidates_placeholder [reporterBob] [] plainIssueData 0 rfl

/-! ## Claim C8: who can appear in the ranking output -/

/-- The `user_role` entry of a score record is the scored user's role. -/
theorem calcScore_userRole (u : User) (issues : List Issue) (d : IssueData)
    (required : List String) (now : ℚ) :
    (calculateAssigneeScore u issues d required now).userRole = u.role := rfl

/-- Membership in the role filter yields the role disjunction. -/
theorem mem_availableUsers_role (users : List User) (u : User)
    (h : u ∈ availableUsersOf users) :
    u.role = UserRole.ADMIN ∨ u.role = UserRole.MAINTAINER := by
  unfold availableUsersOf at h
  rw [List.mem_filter] at h
  have h2 := h.2
  simp only [Bool.or_eq_true, beq_iff_eq] at h2
  exact h2

/-- Every score record in the sorted candidate list comes from a
role-eligible user. -/
theorem mem_sortedScores (users : List User) (issues : List Issue) (d : IssueData)
    (now : ℚ) (sd : ScoreData) (h : sd ∈ sortedScoresOf users issues d now) :
    ∃ u ∈ availableUsersOf users,
      sd = calculateAssigneeScore u issues d
        (identifyRequiredExpertise (lowerStr (d.title ++ spaceStr ++ d.description))) now := by
  unfold sortedScoresOf at h
  rw [List.mem_insertionSort, List.mem_map] at h
  obtain ⟨u, hu, he⟩ := h
  exact ⟨u, hu, he.symm⟩

/-- Claim C8 (counterexample): an ADMIN user whose `is_active` flag is
cleared is nonetheless returned as the recommended assignee — the code
never filters on `is_active`. -/
theorem C8_counterexample :
    (suggestAssignee [inactiveAdmin] [] plainIssueData 0).recommended =
      some { id := 3, name := nameAlice, role := UserRole.ADMIN } ∧
    inactiveAdmin.isActive = false := ⟨rfl, rfl⟩

/-- Claim C8 (amended): every candidate appearing in the ranking output —
the recommended assignee and every entry of the suggestion list — has role
ADMIN or MAINTAINER (a REPORTER never appears); the `isActive` flag is not
consulted, so inactive admins and maintainers can appear. -/
theorem C8_roles (users : List User) (issues : List Issue) (d : IssueData) (now : ℚ) :
    (∀ r, (suggestAssignee users issues d now).recommended = some r →
      r.role = UserRole.ADMIN ∨ r.role = UserRole.MAINTAINER) ∧
    (∀ sd, sd ∈ (suggestAssignee users issues d now).allSuggestions →
      sd.userRole = UserRole.ADMIN ∨ sd.userRole = UserRole.MAINTAINER) := by
  constructor
  · intro r hr
    unfold suggestAssignee at hr
    split at hr
    · simp at hr
    · split at hr
      · simp at hr
      · rename_i best rest heq
        simp only [Option.some.injEq] at hr
        have hb : best ∈ sortedScoresOf users issues d now := by
          rw [heq]; exact List.mem_cons_self best rest
        obtain ⟨u, hu, hbe⟩ := mem_sortedScores users issues d now best hb
        have hrole : best.userRole = u.role := by
          rw [hbe, calcScore_userRole]
        rw [← hr]
        simp only [hrole]
        exact mem_availableUsers_role users u hu
  · intro sd hsd
    unfold suggestAssignee at hsd
    split at hsd
    · simp at hsd
    · split at hsd
      · simp at hsd
      · rename_i best rest heq
        have h2 : sd ∈ best :: rest := List.mem_of_mem_take hsd
        rw [← heq] at h2
        obtain ⟨u, hu, hbe⟩ := mem_sortedScores users issues d now sd h2
        have hrole : sd.userRole = u.role := by
          rw [hbe, calcScore_userRole]
        rw [hrole]
        exact mem_availableUsers_role users u hu

/-- Claim C8 witness: the recommended-assignee conjunct at the database
holding only the inactive admin. -/
theorem C8_witness :
    RecommendedAssignee.role { id := 3, name := nameAlice, role := UserRole.ADMIN } =
        UserRole.ADMIN ∨
    RecommendedAssignee.role { id := 3, name := nameAlice, role := UserRole.ADMIN } =
        UserRole.MAINTAINER :=
  (C8_roles [inactiveAdmin] [] plainIssueData 0).1
    { id := 3, name := nameAlice, role := UserRole.ADMIN } rfl

/-! ## Claim C9: notification ranking and truncation -/

/-- Claim C9 (confirmed): notifications are ranked by the product of the
urgency weight (high 3, medium 2, low 1) and the type weight (escalation 3,
bottleneck and trend/pattern 2, assignment-needed 2, workload-warning 1);
the composer sorts descending by that product, truncates to the fixed cap
of 20, keeps only input notifications, and every dropped notification
scores no higher than every kept one. -/
theorem C9_notification_ranking :
    (urgencyWeight urgStrHigh = 3 ∧ urgencyWeight urgStrMedium = 2 ∧
      urgencyWeight urgStrLow = 1) ∧
    (typeWeight typeStrEscalation = 3 ∧ typeWeight typeStrBottleneck = 2 ∧
      typeWeight typeStrTrendAlert = 2 ∧ typeWeight typeStrAssignmentNeeded = 2 ∧
      typeWeight typeStrWorkloadWarning = 1) ∧
    (∀ n, getPriorityScore n = urgencyWeight n.urgency * typeWeight n.ntype) ∧
    (∀ ns, (prioritizeNotifications ns).length ≤ 20) ∧
    (∀ ns, List.Sorted notifDescRel (prioritizeNotifications ns)) ∧
    (∀ ns, prioritizeNotifications ns ⊆ ns) ∧
    (∀ ns x y, x ∈ (List.insertionSort notifDescRel ns).drop 20 →
      y ∈ prioritizeNotifications ns → getPriorityScore x ≤ getPriorityScore y) := by
  refine ⟨⟨by decide, by decide, by decide⟩,
    ⟨by decide, by decide, by decide, by decide, by decide⟩,
    fun n => rfl, ?_, ?_, ?_, ?_⟩
  · intro ns
    unfold prioritizeNotifications
    exact List.length_take_le 20 (List.insertionSort notifDescRel ns)
  · intro ns
    exact List.Pairwise.sublist (List.take_sublist 20 _)
      (List.sorted_insertionSort notifDescRel ns)
  · intro ns x hx
    exact (List.mem_insertionSort notifDescRel).mp (List.mem_of_mem_take hx)
  · intro ns x y hx hy
    have hs : List.Pairwise notifDescRel (List.insertionSort notifDescRel ns) :=
      List.sorted_insertionSort notifDescRel ns
    have heq := List.take_append_drop 20 (List.insertionSort notifDescRel ns)
    rw [← heq] at hs
    exact (List.pairwise_append.mp hs).2.2 y hy x hx

/-- Claim C9 witness: with one high-priority notification and 20 low ones,
the dropped 21st notification scores no higher than the kept top one. -/
theorem C9_witness : getPriorityScore lowNotification ≤ getPriorityScore highNotification :=
  C9_notification_ranking.2.2.2.2.2.2
    (highNotification :: List.replicate 20 lowNotification)
    lowNotification highNotification (by decide) (by decide)

end IssuesTracker
